import Mathlib

/-!
Shallow embedding of the purchase/scheduling core of the `market` app
(`market/models.py`, `market/tasks.py`) together with the external
collaborators it touches (timeline entries, customers, products).

Timestamps and durations are modelled as integers (seconds); Django's
`timezone.now()` becomes an explicit `now : Int` argument.  Python
exceptions become `Except` / explicit outcome types: an `Except.error`
result means the exception propagates and the caller's objects keep the
state they had before the call (the source raises before mutating, except
where the effect-trace model below records otherwise).
-/

namespace Market

/-- External collaborator `timeline.Entry` (the calendar slot).  Its own code
lives outside this repository; only the fields and operations the `market`
code reads are modelled.  `is_free` is the slot's "occupancy below capacity"
predicate, kept as an opaque boolean field. -/
structure Entry where
  pk : Option Nat
  teacher : Nat
  lesson : Nat
  lesson_type : Nat
  start : Int
  is_free : Bool
  taken_slots : Nat
  allow_besides_working_hours : Bool
deriving DecidableEq

/-- External collaborator `crm.Customer`; only the cancellation-streak counter
is touched by the market code. -/
structure Customer where
  cancellation_streak : Nat
deriving DecidableEq

/-- `market.Class` — a single purchased lesson (fields of the Django model that
the modelled operations read or write). -/
structure Class where
  pk : Option Nat
  customer : Nat
  lesson_type : Nat
  is_scheduled : Bool
  is_fully_used : Bool
  buy_source : String
  buy_price : Int
  timeline : Option Entry
  subscription_id : Option Nat
deriving DecidableEq

/-- `market.Subscription` — a purchased bundle of lessons. -/
structure Subscription where
  pk : Nat
  customer : Nat
  buy_date : Int
  buy_price : Int
  duration : Int
  is_fully_used : Bool
  first_lesson_date : Option Int
  when_waste_money_notification_sent : Option Int
deriving DecidableEq

/-- External product catalog (`products` app): a product carries a duration, an
enumerable list of lesson types, and for each type the number of contained
lessons (`classes_by_lesson_type`). -/
structure Product where
  duration : Int
  lesson_types : List Nat
  classes_by_lesson_type : Nat → Nat

/-- External lesson catalog operations used by `Class.schedule`:
`Lesson.timeline_entry_required()` and `Lesson.get_default()`, per lesson
content type. -/
structure Catalog where
  timeline_entry_required : Nat → Bool
  get_default : Nat → Nat

/-- Exceptions raised by the market code. -/
inductive MarketError where
  | cannotBeScheduled (msg : String)
  | validationError (msg : String)
deriving DecidableEq

/-- `MARK_CLASSES_AS_USED_AFTER = timedelta(hours=1)`, in seconds. -/
def MARK_CLASSES_AS_USED_AFTER : Int := 60 * 60

/-- `timeline.Entry.clean()` — validation/normalization belonging to the
external timeline app; it does not change the fields modelled here, so it is
the identity on the modelled state. -/
def Entry.clean (e : Entry) : Entry := e

/-- Modelled from the spec: the timeline entry's string rendering (its
`__str__` lives in the external timeline app).  Per the spec the failure
message must carry the slot identifiers, so the identifying fields are
rendered. -/
def Entry.render (e : Entry) : String :=
  toString e.teacher ++ (" " ++ (toString e.lesson_type ++ (" " ++ toString e.start)))

/-- `entry.classes.remove(self, bulk=True)`: detach the class from the slot
without running the class's own save, releasing one occupied seat. -/
def Entry.remove_occupant (e : Entry) (_ : Class) : Entry :=
  {e with taken_slots := e.taken_slots - 1}

/-- `Class.__str__`: `"{lesson_type} for {student}"`, plus the owning
subscription's product in parentheses when present (the product's rendering is
external; the owning subscription's id stands in for it). -/
def Class.str (c : Class) : String :=
  let s := toString c.lesson_type ++ (" for " ++ toString c.customer)
  match c.subscription_id with
  | some sid => s ++ (" (" ++ (toString sid ++ ")"))
  | none => s

/-- `Class._save_scheduled` (class-row part): sets `is_scheduled = True`.  The
source additionally persists the bound entry before and after the class row
and emits `class_scheduled` on the first scheduling. -/
def Class.save_scheduled (c : Class) : Class := {c with is_scheduled := true}

/-- `Class._save_unscheduled` (class-row part): sets `is_scheduled = False`. -/
def Class.save_unscheduled (c : Class) : Class := {c with is_scheduled := false}

/-- `Class.save`: dispatches on whether a timeline entry is bound. -/
def Class.save (c : Class) : Class :=
  match c.timeline with
  | none => c.save_unscheduled
  | some _ => c.save_scheduled

/-- `Class.renew`: clears the timeline reference, then the base
`ProductContainer.renew` sets `is_fully_used = False` and saves. -/
def Class.renew (c : Class) : Class :=
  Class.save {c with timeline := none, is_fully_used := false}

/-- Base `ProductContainer.mark_as_fully_used`: set the flag and save.  (The
`Class` override additionally propagates to the owning subscription; that
propagation is modelled where the subscription state is in scope.) -/
def Class.mark_as_fully_used_base (c : Class) : Class :=
  Class.save {c with is_fully_used := true}

/-- `Class.can_be_scheduled(entry)`. -/
def Class.can_be_scheduled (c : Class) (entry : Entry) : Bool :=
  if c.is_scheduled || !entry.is_free then false
  else if c.lesson_type != entry.lesson_type then false
  else true

/-- `Class.assign_entry(entry)`: raise `CannotBeScheduled('%s %s' % (self,
entry))` unless the entry can be scheduled; otherwise bind the entry (and run
its `clean()`). -/
def Class.assign_entry (c : Class) (entry : Entry) : Except MarketError Class :=
  if !(c.can_be_scheduled entry) then
    Except.error (MarketError.cannotBeScheduled (c.str ++ (" " ++ entry.render)))
  else
    Except.ok {c with timeline := some entry.clean}

/-- `Class.__get_entry`: find an existing timeline entry for this teacher,
lesson type and date, or construct a new, not yet persisted one.  Note the
constructor receives `allow_besides_working_hours=False` literally; the
caller-supplied arguments are not used. -/
def Class.get_entry (cat : Catalog) (db : List Entry) (c : Class) (teacher : Nat)
    (date : Int) (allow_overlap allow_besides_working_hours : Bool) : Entry :=
  match db.find? (fun e => e.teacher == teacher && e.lesson_type == c.lesson_type && e.start == date) with
  | some e => e
  | none =>
    { pk := none
      teacher := teacher
      lesson := cat.get_default c.lesson_type
      lesson_type := c.lesson_type
      start := date
      is_free := true
      taken_slots := 0
      allow_besides_working_hours := false }

/-- `Class.schedule`: only legal for lesson types that do not require a
pre-existing timeline entry; otherwise find-or-construct an entry and assign
it. -/
def Class.schedule (cat : Catalog) (db : List Entry) (c : Class) (teacher : Nat)
    (date : Int) (allow_overlap allow_besides_working_hours : Bool) :
    Except MarketError Class :=
  if cat.timeline_entry_required c.lesson_type then
    Except.error (MarketError.cannotBeScheduled
      ("Lesson " ++ (toString c.lesson_type ++ " requieres a teachers timeline entry")))
  else
    c.assign_entry (c.get_entry cat db teacher date allow_overlap allow_besides_working_hours)

/-! ## Cancellation (`Class.cancel`) with an effect trace

The trace records the externally observable side effects in the order the
source performs them, so that "what already happened when an exception fires"
is part of the model.  `noneTypeError` is Python's `AttributeError` on
`None` — reached whenever `self.timeline` is `None` and gets dereferenced. -/

inductive CancelEffect where
  | streakIncremented
  | classCancelledSignal (src : String)
  | detachedAndRenewed
deriving DecidableEq

inductive CancelOutcome where
  | ok (c : Class) (customer : Customer) (entry : Entry)
  | validationError (msg : String)
  | noneTypeError
deriving DecidableEq

structure CancelResult where
  outcome : CancelOutcome
  effects : List CancelEffect
deriving DecidableEq

/-- Tail of `Class.cancel` after the two temporal checks: send the
`class_cancelled` signal, detach from the entry (`entry.classes.remove`),
`renew()`, save the entry. -/
def Class.cancel_finish (c : Class) (cust : Customer) (src : String)
    (fx : List CancelEffect) : CancelResult :=
  let fx := fx ++ [CancelEffect.classCancelledSignal src]
  match c.timeline with
  | none => ⟨CancelOutcome.noneTypeError, fx⟩
  | some e =>
    ⟨CancelOutcome.ok c.renew cust (e.remove_occupant c), fx ++ [CancelEffect.detachedAndRenewed]⟩

/-- Second temporal check of `Class.cancel`: unless the caller uses the
`dangerous-cancellation` override, a class whose slot started more than
`MARK_CLASSES_AS_USED_AFTER` ago cannot be cancelled.  Python's short-circuit
`and` dereferences `self.timeline` only when `src != 'dangerous-cancellation'`. -/
def Class.cancel_grace_check (c : Class) (cust : Customer) (src : String) (now : Int)
    (fx : List CancelEffect) : CancelResult :=
  if src ≠ "dangerous-cancellation" then
    match c.timeline with
    | none => ⟨CancelOutcome.noneTypeError, fx⟩
    | some e =>
      if e.start + MARK_CLASSES_AS_USED_AFTER < now then
        ⟨CancelOutcome.validationError "Past classes cannot be cancelled", fx⟩
      else c.cancel_finish cust src fx
  else c.cancel_finish cust src fx

/-- `Class.cancel(src)`: for `src == 'customer'`, reject past classes and
increment the customer's cancellation streak; then the grace-window check and
the actual unscheduling. -/
def Class.cancel (c : Class) (cust : Customer) (src : String) (now : Int) : CancelResult :=
  if src = "customer" then
    match c.timeline with
    | none => ⟨CancelOutcome.noneTypeError, []⟩
    | some e =>
      if e.start < now then
        ⟨CancelOutcome.validationError "Past classes cannot be cancelled", []⟩
      else
        c.cancel_grace_check {cust with cancellation_streak := cust.cancellation_streak + 1}
          src now [CancelEffect.streakIncremented]
  else c.cancel_grace_check cust src now []

/-! ## Subscription lifecycle -/

/-- `ProductContainer.mark_as_fully_used` on a subscription row. -/
def Subscription.mark_as_fully_used (s : Subscription) : Subscription :=
  {s with is_fully_used := true}

/-- `Subscription.check_is_fully_finished`: if no owned class remains unused,
mark the subscription itself fully used. -/
def Subscription.check_is_fully_finished (s : Subscription) (classes : List Class) :
    Subscription :=
  if classes.any fun c => !c.is_fully_used then s else s.mark_as_fully_used

/-- Earliest `timeline.start` among owned classes with a bound entry
(`classes.filter(timeline__isnull=False).order_by('timeline__start').first()`). -/
def minTimelineStart (classes : List Class) : Option Int :=
  classes.foldl
    (fun acc c =>
      match c.timeline with
      | none => acc
      | some e =>
        match acc with
        | none => some e.start
        | some m => some (min m e.start))
    none

/-- `Subscription.update_first_lesson_date`: a no-op once set; otherwise take
the earliest bound slot start, if any. -/
def Subscription.update_first_lesson_date (s : Subscription) (classes : List Class) :
    Subscription :=
  match s.first_lesson_date with
  | some _ => s
  | none =>
    match minTimelineStart classes with
    | none => s
    | some t => {s with first_lesson_date := some t}

/-- `Subscription.is_due`: the entitlement window has elapsed since
`first_lesson_date` if set, else since `buy_date`. -/
def Subscription.is_due (s : Subscription) (now : Int) : Bool :=
  match s.first_lesson_date with
  | some d => if d + s.duration ≤ now then true else false
  | none => if s.buy_date + s.duration ≤ now then true else false

/-- `Subscription.is_subscription_begin_expire`: false when due; otherwise,
when some class has a bound entry, whether a class with a bound entry starting
after `now + firstNotifyDelay` exists; else whether the purchase is after that
threshold. -/
def Subscription.is_subscription_begin_expire (firstNotifyDelay : Int) (s : Subscription)
    (classes : List Class) (now : Int) : Bool :=
  if s.is_due now then false
  else
    let expire_date := now + firstNotifyDelay
    if classes.any fun c => c.timeline.isSome then
      classes.any fun c =>
        match c.timeline with
        | some e => decide (e.start > expire_date)
        | none => false
    else decide (s.buy_date > expire_date)

/-- Mark the class at position `i` fully used (base behaviour: flag plus
save); positions stand in for row identities of the owned-classes queryset. -/
def markAt : List Class → Nat → List Class
  | [], _ => []
  | c :: cs, 0 => c.mark_as_fully_used_base :: cs
  | c :: cs, Nat.succ n => c :: markAt cs n

/-- One iteration of `Subscription.deactivate`'s loop: `c.deactivate()` on the
owned class at position `i`.  `ProductContainer.deactivate` calls
`mark_as_fully_used`, whose `Class` override runs the base marking and then —
the class being owned by this subscription — `update_first_lesson_date`
followed by `check_is_fully_finished` on the current class rows. -/
def deactivateStep (p : Subscription × List Class) (i : Nat) : Subscription × List Class :=
  let classes := markAt p.2 i
  ((p.1.update_first_lesson_date classes).check_is_fully_finished classes, classes)

/-- The snapshot `self.classes.filter(is_fully_used=False)` taken when the
loop of `Subscription.deactivate` starts (Django evaluates the queryset once),
as the positions of the unused rows. -/
def deactivateTodo (classes : List Class) : List Nat :=
  (List.range classes.length).filter fun i =>
    match classes[i]? with
    | some c => !c.is_fully_used
    | none => false

/-- `Subscription.deactivate`: iterate over the snapshot of owned classes with
`is_fully_used=False` and deactivate each.  The source then emits
`subscription_deactivated`. -/
def Subscription.deactivate (s : Subscription) (classes : List Class) :
    Subscription × List Class :=
  (deactivateTodo classes).foldl deactivateStep (s, classes)

/-! ## Subscription creation (`Subscription.save` with `pk` unset) -/

/-- `Subscription.__store_duration`. -/
def Subscription.store_duration (s : Subscription) (p : Product) : Subscription :=
  {s with duration := p.duration}

/-- `Subscription.__add_lessons_to_user`: one `Class` per lesson of the
product, tagged `buy_source='subscription'` and linked to the subscription;
each class is saved on creation. -/
def Subscription.add_lessons_to_user (s : Subscription) (p : Product) : List Class :=
  p.lesson_types.flatMap fun lt =>
    (List.range (p.classes_by_lesson_type lt)).map fun _ =>
      Class.save
        { pk := none
          customer := s.customer
          lesson_type := lt
          is_scheduled := false
          is_fully_used := false
          buy_source := "subscription"
          buy_price := s.buy_price
          timeline := none
          subscription_id := some s.pk }

/-- `Subscription.save` on a new row (`is_new = True`): store the product's
duration, persist, then materialize the owned classes.  The source contains no
validation of the product's lesson count, so creation is total. -/
def Subscription.save_new (s : Subscription) (p : Product) : Subscription × List Class :=
  let s := s.store_duration p
  (s, s.add_lessons_to_user p)

/-! ## Waste-money notification task (`market/tasks.py:notify_waste_money`) -/

/-- `Max('classes__timeline__start')`: the latest bound slot start among the
subscription's classes, `none` when no class has a bound entry. -/
def maxLessonDate (classes : List Class) : Option Int :=
  classes.foldl
    (fun acc c =>
      match c.timeline with
      | none => acc
      | some e =>
        match acc with
        | none => some e.start
        | some m => some (max m e.start))
    none

/-- The queryset filter of `notify_waste_money`, for one subscription row:
not fully used, no first lesson recorded, not due, not notified within the
repeat cooldown, and idle since `now - firstDelay`. -/
def notify_waste_money_matches (nextDelay firstDelay now : Int) (s : Subscription)
    (classes : List Class) : Bool :=
  let repeat_notification_time := now - nextDelay
  let waste_money_expire_date := now - firstDelay
  let due_edge_date := now - s.duration
  (!s.is_fully_used) &&
  s.first_lesson_date.isNone &&
  ((match s.first_lesson_date with
    | some d => decide (d > due_edge_date)
    | none => false) ||
   (s.first_lesson_date.isNone && decide (s.buy_date > due_edge_date))) &&
  ((match s.when_waste_money_notification_sent with
    | some w => decide (w < repeat_notification_time)
    | none => false) ||
   s.when_waste_money_notification_sent.isNone) &&
  ((match maxLessonDate classes with
    | some m => decide (m ≤ waste_money_expire_date)
    | none => false) ||
   ((maxLessonDate classes).isNone && decide (s.buy_date ≤ waste_money_expire_date)))

/-- One run of the scan, restricted to one subscription: when the row matches,
send one reminder (the count is returned) and record the send time. -/
def notify_waste_money_run (nextDelay firstDelay now : Int) (s : Subscription)
    (classes : List Class) : Subscription × Nat :=
  if notify_waste_money_matches nextDelay firstDelay now s classes then
    ({s with when_waste_money_notification_sent := some now}, 1)
  else (s, 0)

/-! ## Helpers and sample data -/

/-- `part` occurs as a contiguous substring of `msg`. -/
def strIncludes (msg part : String) : Prop :=
  ∃ a b : List Char, msg.data = a ++ (part.data ++ b)

def sampleEntry : Entry :=
  { pk := some 5, teacher := 2, lesson := 9, lesson_type := 3, start := 100,
    is_free := true, taken_slots := 0, allow_besides_working_hours := false }

def sampleClass : Class :=
  { pk := some 1, customer := 7, lesson_type := 3, is_scheduled := false,
    is_fully_used := false, buy_source := "single", buy_price := 10,
    timeline := none, subscription_id := none }

def sampleClassMismatch : Class := {sampleClass with lesson_type := 4}

def sampleCustomer : Customer := ⟨0⟩

def sampleCatalog : Catalog :=
  { timeline_entry_required := fun _ => false, get_default := fun n => n }

def sampleScheduledClass : Class :=
  {sampleClass with timeline := some sampleEntry, is_scheduled := true}

def sampleSubscription : Subscription :=
  { pk := 1, customer := 7, buy_date := 0, buy_price := 150, duration := 1000,
    is_fully_used := false, first_lesson_date := none,
    when_waste_money_notification_sent := none }

def sampleEarlyEntry : Entry := {sampleEntry with start := 0}

def sampleLateEntry : Entry := {sampleEntry with start := 5000}

def sampleEarlyClass : Class :=
  {sampleClass with
    timeline := some sampleEarlyEntry, is_scheduled := true, subscription_id := some 1}

def sampleLateClass : Class :=
  {sampleClass with
    timeline := some sampleLateEntry, is_scheduled := true, subscription_id := some 1}

def sampleUsedClass : Class :=
  {sampleClass with is_fully_used := true, subscription_id := some 1}

def sampleProduct : Product :=
  { duration := 30, lesson_types := [3, 4],
    classes_by_lesson_type := fun lt => if lt = 3 then 2 else 1 }

def zeroProduct : Product :=
  { duration := 30, lesson_types := [], classes_by_lesson_type := fun _ => 0 }

/-- The claim's reading of `is_subscription_begin_expire` (stated for the
refinement comparison): when some class has a bound slot, ALL classes with
bound slots must start after `now + firstNotifyDelay`. -/
def is_subscription_begin_expire_claimed (firstNotifyDelay : Int) (s : Subscription)
    (classes : List Class) (now : Int) : Bool :=
  if s.is_due now then false
  else
    let expire_date := now + firstNotifyDelay
    if classes.any fun c => c.timeline.isSome then
      classes.all fun c =>
        match c.timeline with
        | some e => decide (e.start > expire_date)
        | none => true
    else decide (s.buy_date > expire_date)

lemma can_be_scheduled_iff (c : Class) (e : Entry) :
    c.can_be_scheduled e = true ↔
      (c.is_scheduled = false ∧ e.is_free = true ∧ c.lesson_type = e.lesson_type) := by
  cases hs : c.is_scheduled <;> cases hf : e.is_free <;>
    by_cases hl : c.lesson_type = e.lesson_type <;>
      simp [Class.can_be_scheduled, hs, hf, hl]

lemma cancel_finish_ok (c : Class) (cust : Customer) (src : String)
    (fx : List CancelEffect) (c2 : Class) (cust2 : Customer) (e2 : Entry)
    (h : (c.cancel_finish cust src fx).outcome = CancelOutcome.ok c2 cust2 e2) :
    c2 = c.renew := by
  cases ht : c.timeline <;> simp [Class.cancel_finish, ht] at h
  exact h.1.symm

lemma cancel_grace_check_ok (c : Class) (cust : Customer) (src : String) (now : Int)
    (fx : List CancelEffect) (c2 : Class) (cust2 : Customer) (e2 : Entry)
    (h : (c.cancel_grace_check cust src now fx).outcome = CancelOutcome.ok c2 cust2 e2) :
    c2 = c.renew := by
  unfold Class.cancel_grace_check at h
  by_cases hsrc : src = "dangerous-cancellation"
  · subst hsrc
    simp at h
    exact cancel_finish_ok c cust _ fx c2 cust2 e2 h
  · simp [hsrc] at h
    cases ht : c.timeline with
    | none => rw [ht] at h; simp at h
    | some e =>
      rw [ht] at h
      by_cases hw : e.start + MARK_CLASSES_AS_USED_AFTER < now
      · simp [hw] at h
      · simp [hw] at h
        exact cancel_finish_ok c cust src fx c2 cust2 e2 h

lemma cancel_ok (c : Class) (cust : Customer) (src : String) (now : Int)
    (c2 : Class) (cust2 : Customer) (e2 : Entry)
    (h : (c.cancel cust src now).outcome = CancelOutcome.ok c2 cust2 e2) :
    c2 = c.renew := by
  unfold Class.cancel at h
  by_cases hsrc : src = "customer"
  · subst hsrc
    simp at h
    cases ht : c.timeline with
    | none => rw [ht] at h; simp at h
    | some e =>
      rw [ht] at h
      by_cases hp : e.start < now
      · simp [hp] at h
      · simp [hp] at h
        exact cancel_grace_check_ok c _ _ now _ c2 cust2 e2 h
  · simp [hsrc] at h
    exact cancel_grace_check_ok c cust src now [] c2 cust2 e2 h

/-! ## Claim theorems -/

/-- C4: `Subscription.is_due` returns true iff `now ≥ anchor + duration`,
where the anchor is `first_lesson_date` when set and `buy_date` otherwise. -/
theorem is_due_iff_anchor_plus_duration (s : Subscription) (now : Int) :
    s.is_due now = true ↔ (s.first_lesson_date.getD s.buy_date) + s.duration ≤ now := by
  cases h : s.first_lesson_date <;> simp [Subscription.is_due, h]

/-- C9: when `Class.__get_entry` finds no existing timeline entry for the
teacher, lesson type and date, the entry it constructs has
`allow_besides_working_hours = false` regardless of the caller-supplied
`allow_besides_working_hours` argument. -/
theorem get_entry_new_entry_ignores_allow_besides_working_hours
    (cat : Catalog) (db : List Entry) (c : Class) (teacher : Nat) (date : Int)
    (allow_overlap allow_besides_working_hours : Bool)
    (h : db.find? (fun e =>
        e.teacher == teacher && e.lesson_type == c.lesson_type && e.start == date) = none) :
    (Class.get_entry cat db c teacher date allow_overlap
      allow_besides_working_hours).allow_besides_working_hours = false := by
  simp [Class.get_entry, h]

theorem get_entry_ignores_abwh_witness :
    (Class.get_entry sampleCatalog [] sampleClass 2 100 true
      true).allow_besides_working_hours = false :=
  get_entry_new_entry_ignores_allow_besides_working_hours sampleCatalog [] sampleClass
    2 100 true true rfl

/-- C1: `Class.assign_entry` raises `CannotBeScheduled` — with a message
carrying the class's and the entry's renderings — iff the class is already
scheduled, or the entry is not free, or the lesson types differ; on failure
the exception propagates before any assignment, so the caller's class keeps
its previous (unassigned) state; on success the entry is bound as the class's
timeline. -/
theorem assign_entry_raises_iff_preconditions (c : Class) (e : Entry) :
    ((∃ err, c.assign_entry e = Except.error err) ↔
      (c.is_scheduled = true ∨ e.is_free = false ∨ c.lesson_type ≠ e.lesson_type))
  ∧ (∀ msg, c.assign_entry e = Except.error (MarketError.cannotBeScheduled msg) →
      strIncludes msg c.str ∧ strIncludes msg e.render)
  ∧ (c.is_scheduled = false → e.is_free = true → c.lesson_type = e.lesson_type →
      c.assign_entry e = Except.ok {c with timeline := some e}) := by
  have hiff := can_be_scheduled_iff c e
  refine ⟨⟨?_, ?_⟩, ?_, ?_⟩
  · rintro ⟨err, herr⟩
    by_contra hno
    push_neg at hno
    obtain ⟨h1, h2, h3⟩ := hno
    simp only [Bool.not_eq_true] at h1
    simp only [Bool.not_eq_false] at h2
    have hcan : c.can_be_scheduled e = true := hiff.mpr ⟨h1, h2, h3⟩
    simp [Class.assign_entry, hcan] at herr
  · intro hvi
    have hcan : c.can_be_scheduled e = false := by
      cases hcb : c.can_be_scheduled e
      · rfl
      · exfalso
        have := hiff.mp hcb
        rcases hvi with h | h | h <;> simp_all
    exact ⟨MarketError.cannotBeScheduled (c.str ++ (" " ++ e.render)),
      by simp [Class.assign_entry, hcan]⟩
  · intro msg hmsg
    cases hcb : c.can_be_scheduled e
    · simp [Class.assign_entry, hcb] at hmsg
      subst hmsg
      constructor
      · exact ⟨[], (" " ++ e.render).data, rfl⟩
      · refine ⟨c.str.data ++ (" ").data, [], ?_⟩
        show c.str.data ++ ((" ").data ++ e.render.data) = _
        simp [List.append_assoc]
    · simp [Class.assign_entry, hcb] at hmsg
  · intro h1 h2 h3
    have hcan : c.can_be_scheduled e = true := hiff.mpr ⟨h1, h2, h3⟩
    simp [Class.assign_entry, hcan, Entry.clean]

theorem assign_entry_raises_iff_preconditions_witness :
    (strIncludes (Class.str sampleClassMismatch ++ (" " ++ Entry.render sampleEntry))
        (Class.str sampleClassMismatch)
      ∧ strIncludes (Class.str sampleClassMismatch ++ (" " ++ Entry.render sampleEntry))
        (Entry.render sampleEntry))
  ∧ Class.assign_entry sampleClass sampleEntry =
      Except.ok {sampleClass with timeline := some sampleEntry} :=
  ⟨(assign_entry_raises_iff_preconditions sampleClassMismatch sampleEntry).2.1 _ rfl,
   (assign_entry_raises_iff_preconditions sampleClass sampleEntry).2.2 rfl rfl rfl⟩

/-- C6: after every `Class.save` — through both the scheduled and the
unscheduled path — `is_scheduled` equals "a timeline entry is bound"; the same
invariant holds after `renew()` and for the class produced by a successful
`cancel()`. -/
theorem is_scheduled_iff_timeline_after_save (c : Class) (cust : Customer)
    (src : String) (now : Int) :
    ((Class.save c).is_scheduled = ((Class.save c).timeline).isSome)
  ∧ ((Class.renew c).is_scheduled = ((Class.renew c).timeline).isSome)
  ∧ (match (Class.cancel c cust src now).outcome with
     | CancelOutcome.ok c2 _ _ => c2.is_scheduled = (c2.timeline).isSome
     | _ => True) := by
  refine ⟨?_, ?_, ?_⟩
  · cases h : c.timeline <;>
      simp [Class.save, Class.save_scheduled, Class.save_unscheduled, h]
  · simp [Class.renew, Class.save, Class.save_unscheduled]
  · cases h : (Class.cancel c cust src now).outcome with
    | ok c2 cust2 e2 =>
      have hc2 := cancel_ok c cust src now c2 cust2 e2 h
      subst hc2
      simp [Class.renew, Class.save, Class.save_unscheduled]
    | validationError msg => trivial
    | noneTypeError => trivial

/-- C2: for a scheduled class, `cancel('customer')` raises a validation error
exactly when the slot already started, and on success increments the
customer's cancellation streak by one; for any source other than
`dangerous-cancellation` a validation error is raised once the slot's start
plus one hour is in the past; `dangerous-cancellation` skips the temporal
checks and succeeds. -/
theorem cancel_validation_windows (c : Class) (cust : Customer) (e : Entry) (now : Int)
    (h : c.timeline = some e) :
    ((e.start < now →
        c.cancel cust "customer" now =
          ⟨CancelOutcome.validationError "Past classes cannot be cancelled", []⟩)
      ∧ (¬ e.start < now →
          ∃ c2 e2, (c.cancel cust "customer" now).outcome =
            CancelOutcome.ok c2
              {cust with cancellation_streak := cust.cancellation_streak + 1} e2))
  ∧ (∀ src, src ≠ "dangerous-cancellation" → e.start + MARK_CLASSES_AS_USED_AFTER < now →
      (c.cancel cust src now).outcome =
        CancelOutcome.validationError "Past classes cannot be cancelled")
  ∧ (∃ c2 cust2 e2, (c.cancel cust "dangerous-cancellation" now).outcome =
      CancelOutcome.ok c2 cust2 e2) := by
  refine ⟨⟨?_, ?_⟩, ?_, ?_⟩
  · intro hp
    simp [Class.cancel, h, hp]
  · intro hp
    have hw : ¬ (e.start + MARK_CLASSES_AS_USED_AFTER < now) := by
      unfold MARK_CLASSES_AS_USED_AFTER
      omega
    refine ⟨c.renew, e.remove_occupant c, ?_⟩
    simp [Class.cancel, Class.cancel_grace_check, Class.cancel_finish, h, hp, hw]
  · intro src hsrc hw
    by_cases hc : src = "customer"
    · subst hc
      have hp : e.start < now := by
        unfold MARK_CLASSES_AS_USED_AFTER at hw
        omega
      simp [Class.cancel, h, hp]
    · simp [Class.cancel, Class.cancel_grace_check, h, hc, hsrc, hw]
  · refine ⟨c.renew, cust, e.remove_occupant c, ?_⟩
    simp [Class.cancel, Class.cancel_grace_check, Class.cancel_finish, h]

theorem cancel_validation_windows_witness :
    (sampleScheduledClass.cancel sampleCustomer "customer" 10000 =
      ⟨CancelOutcome.validationError "Past classes cannot be cancelled", []⟩)
  ∧ (∃ c2 e2, (sampleScheduledClass.cancel sampleCustomer "customer" 0).outcome =
      CancelOutcome.ok c2
        {sampleCustomer with cancellation_streak := sampleCustomer.cancellation_streak + 1} e2)
  ∧ ((sampleScheduledClass.cancel sampleCustomer "teacher" 10000).outcome =
      CancelOutcome.validationError "Past classes cannot be cancelled")
  ∧ (∃ c2 cust2 e2,
      (sampleScheduledClass.cancel sampleCustomer "dangerous-cancellation" 10000).outcome =
        CancelOutcome.ok c2 cust2 e2) :=
  ⟨(cancel_validation_windows sampleScheduledClass sampleCustomer sampleEntry 10000
      rfl).1.1 (by decide),
   (cancel_validation_windows sampleScheduledClass sampleCustomer sampleEntry 0
      rfl).1.2 (by decide),
   (cancel_validation_windows sampleScheduledClass sampleCustomer sampleEntry 10000
      rfl).2.1 "teacher" (by decide) (by decide),
   (cancel_validation_windows sampleScheduledClass sampleCustomer sampleEntry 10000
      rfl).2.2⟩

lemma cancel_grace_check_some_ne_noneType (c : Class) (cust : Customer) (src : String)
    (now : Int) (fx : List CancelEffect) (e : Entry) (he : c.timeline = some e) :
    (c.cancel_grace_check cust src now fx).outcome ≠ CancelOutcome.noneTypeError := by
  unfold Class.cancel_grace_check
  by_cases hd : src = "dangerous-cancellation"
  · simp [hd, Class.cancel_finish, he]
  · by_cases hw : e.start + MARK_CLASSES_AS_USED_AFTER < now <;>
      simp [hd, hw, Class.cancel_finish, he]

/-- C10 (amended): for every class with no bound timeline entry, `cancel()`
reaches Python's `NoneType` attribute error for every source; for sources
other than `dangerous-cancellation` this happens before any observable effect
(no streak increment, no signal), while with `dangerous-cancellation` the
`class_cancelled` signal is emitted before the dereference; for a scheduled
class the `NoneType` error is unreachable. -/
theorem cancel_none_timeline_none_type_error (c : Class) (cust : Customer)
    (src : String) (now : Int) :
    (c.timeline = none →
      ((c.cancel cust src now).outcome = CancelOutcome.noneTypeError
        ∧ (src ≠ "dangerous-cancellation" → (c.cancel cust src now).effects = [])
        ∧ (src = "dangerous-cancellation" →
            (c.cancel cust src now).effects = [CancelEffect.classCancelledSignal src])))
  ∧ (∀ e, c.timeline = some e →
      (c.cancel cust src now).outcome ≠ CancelOutcome.noneTypeError) := by
  constructor
  · intro hn
    by_cases hc : src = "customer"
    · subst hc
      simp [Class.cancel, hn]
    · by_cases hd : src = "dangerous-cancellation"
      · subst hd
        simp [Class.cancel, Class.cancel_grace_check, Class.cancel_finish, hn]
      · simp [Class.cancel, Class.cancel_grace_check, hc, hd, hn]
  · intro e he
    by_cases hc : src = "customer"
    · subst hc
      by_cases hp : e.start < now
      · simp [Class.cancel, he, hp]
      · simp only [Class.cancel, he, hp, if_true, if_false]
        simp [hp]
        exact cancel_grace_check_some_ne_noneType c _ _ now _ e he
    · simp [Class.cancel, hc]
      exact cancel_grace_check_some_ne_noneType c cust src now [] e he

theorem cancel_none_timeline_none_type_error_witness :
    ((sampleClass.cancel sampleCustomer "teacher" 0).outcome = CancelOutcome.noneTypeError
      ∧ (sampleClass.cancel sampleCustomer "teacher" 0).effects = [])
  ∧ (sampleScheduledClass.cancel sampleCustomer "teacher" 0).outcome ≠
      CancelOutcome.noneTypeError :=
  ⟨⟨((cancel_none_timeline_none_type_error sampleClass sampleCustomer "teacher" 0).1
        rfl).1,
    ((cancel_none_timeline_none_type_error sampleClass sampleCustomer "teacher" 0).1
        rfl).2.1 (by decide)⟩,
   (cancel_none_timeline_none_type_error sampleScheduledClass sampleCustomer "teacher"
      0).2 sampleEntry rfl⟩

/-- C10 counterexample to the claim as stated: with
`src = 'dangerous-cancellation'` and no bound timeline entry, the
`class_cancelled` signal — domain-level cancellation logic observed by the
accounting sink — is emitted before the `NoneType` dereference is reached. -/
theorem cancel_dangerous_signal_before_none_deref :
    (sampleClass.cancel sampleCustomer "dangerous-cancellation" 0).effects =
      [CancelEffect.classCancelledSignal "dangerous-cancellation"]
  ∧ (sampleClass.cancel sampleCustomer "dangerous-cancellation" 0).outcome =
      CancelOutcome.noneTypeError := by
  constructor <;> rfl

/-- C5: once a run of the waste-money scan matches a subscription — sending
one reminder and recording the send time — any further run within the repeat
cooldown window sends nothing for that subscription and leaves its state
unchanged. -/
theorem notify_waste_money_idempotent_within_cooldown
    (nextDelay firstDelay t1 t2 : Int) (s : Subscription) (classes : List Class)
    (hmatch : notify_waste_money_matches nextDelay firstDelay t1 s classes = true)
    (hcool : t2 - nextDelay ≤ t1) :
    notify_waste_money_run nextDelay firstDelay t1 s classes =
      ({s with when_waste_money_notification_sent := some t1}, 1)
  ∧ notify_waste_money_run nextDelay firstDelay t2
      {s with when_waste_money_notification_sent := some t1} classes =
      ({s with when_waste_money_notification_sent := some t1}, 0) := by
  constructor
  · simp [notify_waste_money_run, hmatch]
  · have hd : ¬ (t1 < t2 - nextDelay) := by omega
    have hno : notify_waste_money_matches nextDelay firstDelay t2
        {s with when_waste_money_notification_sent := some t1} classes = false := by
      simp [notify_waste_money_matches, hd]
    simp [notify_waste_money_run, hno]

theorem notify_waste_money_idempotent_witness :
    notify_waste_money_run 50 5 100 sampleSubscription [] =
      ({sampleSubscription with when_waste_money_notification_sent := some 100}, 1)
  ∧ notify_waste_money_run 50 5 120
      {sampleSubscription with when_waste_money_notification_sent := some 100} [] =
      ({sampleSubscription with when_waste_money_notification_sent := some 100}, 0) :=
  notify_waste_money_idempotent_within_cooldown 50 5 100 120 sampleSubscription []
    (by decide) (by decide)

/-- C7 (amended): for a subscription that is not due,
`is_subscription_begin_expire` is true iff either some class with a bound slot
starts after `now + firstNotifyDelay` (the source uses an existence check, not
an all-quantified one), or no class has a bound slot and the purchase time is
after that threshold; a due subscription always yields false. -/
theorem begin_expire_exists_characterization (firstNotifyDelay now : Int)
    (s : Subscription) (classes : List Class) :
    Subscription.is_subscription_begin_expire firstNotifyDelay s classes now = true ↔
      (s.is_due now = false ∧
        ((∃ c ∈ classes, ∃ e, c.timeline = some e ∧ e.start > now + firstNotifyDelay)
          ∨ ((∀ c ∈ classes, c.timeline = none)
              ∧ s.buy_date > now + firstNotifyDelay))) := by
  unfold Subscription.is_subscription_begin_expire
  cases hdue : s.is_due now
  · simp only [Bool.false_eq_true, if_false, true_and]
    cases hany : classes.any fun c => c.timeline.isSome
    · have hall : ∀ c ∈ classes, c.timeline = none := by
        intro c hc
        have := List.any_eq_false.mp hany c hc
        cases ht : c.timeline
        · rfl
        · rw [ht] at this; simp at this
      simp only [hany, Bool.false_eq_true, if_false, decide_eq_true_eq]
      constructor
      · intro hbuy
        exact Or.inr ⟨hall, hbuy⟩
      · rintro (⟨c, hc, e, he, _⟩ | ⟨_, hbuy⟩)
        · rw [hall c hc] at he
          cases he
        · exact hbuy
    · simp only [hany, if_true]
      rw [List.any_eq_true]
      constructor
      · rintro ⟨c, hc, hm⟩
        cases ht : c.timeline with
        | none => rw [ht] at hm; simp at hm
        | some e =>
          rw [ht] at hm
          simp only [decide_eq_true_eq] at hm
          exact Or.inl ⟨c, hc, e, ht, hm⟩
      · rintro (⟨c, hc, e, he, hgt⟩ | ⟨hnone, _⟩)
        · refine ⟨c, hc, ?_⟩
          rw [he]
          simpa using hgt
        · exfalso
          obtain ⟨c, hc, hsome⟩ := List.any_eq_true.mp hany
          rw [hnone c hc] at hsome
          simp at hsome
  · simp [hdue]

/-- C7 counterexample to the claim as stated: a not-due subscription with two
scheduled classes, one starting before and one after the threshold — the code
returns true (some class qualifies) while the claim's all-quantified reading
returns false. -/
theorem begin_expire_claim_counterexample :
    Subscription.is_subscription_begin_expire 10 sampleSubscription
      [sampleEarlyClass, sampleLateClass] 0 = true
  ∧ is_subscription_begin_expire_claimed 10 sampleSubscription
      [sampleEarlyClass, sampleLateClass] 0 = false := by
  constructor <;> rfl

/-- C8 (amended): creating a subscription from a product never fails — the
source contains no zero-lesson validation, so the creation function is total —
and it materializes exactly one class per lesson unit (zero classes for a
zero-unit product), each tagged `buy_source='subscription'`, linked to the
subscription, unscheduled and unused; the product's duration is copied. -/
theorem subscription_save_materializes_classes (s : Subscription) (p : Product) :
    ((s.save_new p).2).length = (p.lesson_types.map p.classes_by_lesson_type).sum
  ∧ (∀ c ∈ (s.save_new p).2,
      c.buy_source = "subscription" ∧ c.subscription_id = some s.pk
        ∧ c.is_scheduled = false ∧ c.is_fully_used = false)
  ∧ (s.save_new p).1.duration = p.duration := by
  refine ⟨?_, ?_, rfl⟩
  · simp only [Subscription.save_new, Subscription.add_lessons_to_user,
      Subscription.store_duration, List.length_flatMap]
    have h : (List.length ∘ fun lt =>
        (List.range (p.classes_by_lesson_type lt)).map fun _ =>
          Class.save
            { pk := none
              customer := s.customer
              lesson_type := lt
              is_scheduled := false
              is_fully_used := false
              buy_source := "subscription"
              buy_price := s.buy_price
              timeline := none
              subscription_id := some s.pk }) = p.classes_by_lesson_type := by
      funext lt
      simp
    rw [h]
  · intro c hc
    simp only [Subscription.save_new, Subscription.add_lessons_to_user,
      Subscription.store_duration, List.mem_flatMap, List.mem_map] at hc
    obtain ⟨lt, hlt, ⟨i, hi, hc⟩⟩ := hc
    subst hc
    exact ⟨rfl, rfl, rfl, rfl⟩

theorem subscription_save_materializes_witness :
    ((sampleSubscription.save_new sampleProduct).2).length =
      (sampleProduct.lesson_types.map sampleProduct.classes_by_lesson_type).sum
  ∧ (((sampleSubscription.save_new sampleProduct).2).headD sampleClass).buy_source =
      "subscription"
  ∧ ((sampleSubscription.save_new sampleProduct).1).duration = sampleProduct.duration :=
  ⟨(subscription_save_materializes_classes sampleSubscription sampleProduct).1,
   ((subscription_save_materializes_classes sampleSubscription sampleProduct).2.1
      (((sampleSubscription.save_new sampleProduct).2).headD sampleClass) (by decide)).1,
   (subscription_save_materializes_classes sampleSubscription sampleProduct).2.2⟩

/-- C8 counterexample to the claim as stated: for a product with zero lesson
units, creation completes normally — `Subscription.save` contains no
`ValidationError` — and simply materializes zero classes. -/
theorem subscription_save_zero_units_no_error :
    (sampleSubscription.save_new zeroProduct).2 = []
  ∧ (sampleSubscription.save_new zeroProduct).1 =
      {sampleSubscription with duration := 30} := by
  constructor <;> rfl

lemma mark_base_is_fully_used (c : Class) : c.mark_as_fully_used_base.is_fully_used = true := by
  cases h : c.timeline <;>
    simp [Class.mark_as_fully_used_base, Class.save, Class.save_scheduled,
      Class.save_unscheduled, h]

lemma getElem?_markAt (cs : List Class) (i j : Nat) :
    (markAt cs i)[j]? =
      if j = i then (cs[j]?).map Class.mark_as_fully_used_base else cs[j]? := by
  induction cs generalizing i j with
  | nil => simp [markAt]
  | cons c cs ih =>
    cases i with
    | zero =>
      cases j with
      | zero => simp [markAt]
      | succ j => simp [markAt]
    | succ i =>
      cases j with
      | zero => simp [markAt]
      | succ j => simpa [markAt] using ih i j

lemma foldl_deactivateStep_snd (todo : List Nat) (s : Subscription) (classes : List Class) :
    (todo.foldl deactivateStep (s, classes)).2 = todo.foldl markAt classes := by
  induction todo generalizing s classes with
  | nil => rfl
  | cons i todo ih =>
    have h := ih ((Subscription.update_first_lesson_date s (markAt classes i)).check_is_fully_finished
      (markAt classes i)) (markAt classes i)
    simpa [List.foldl_cons, deactivateStep] using h

lemma foldl_markAt_getElem?_not_mem (todo : List Nat) (classes : List Class) (j : Nat)
    (h : j ∉ todo) :
    (todo.foldl markAt classes)[j]? = classes[j]? := by
  induction todo generalizing classes with
  | nil => rfl
  | cons i todo ih =>
    simp only [List.mem_cons, not_or] at h
    simp only [List.foldl_cons]
    rw [ih _ h.2, getElem?_markAt, if_neg h.1]

lemma foldl_markAt_getElem?_mem (todo : List Nat) (classes : List Class) (j : Nat)
    (hnd : todo.Nodup) (h : j ∈ todo) :
    (todo.foldl markAt classes)[j]? = (classes[j]?).map Class.mark_as_fully_used_base := by
  induction todo generalizing classes with
  | nil => cases h
  | cons i todo ih =>
    simp only [List.foldl_cons]
    rcases List.mem_cons.mp h with hj | hj
    · subst hj
      have hni : j ∉ todo := (List.nodup_cons.mp hnd).1
      rw [foldl_markAt_getElem?_not_mem todo _ j hni, getElem?_markAt, if_pos rfl]
    · rw [ih _ (List.nodup_cons.mp hnd).2 hj, getElem?_markAt]
      have hne : j ≠ i := fun hji => (List.nodup_cons.mp hnd).1 (hji ▸ hj)
      rw [if_neg hne]

lemma foldl_deactivateStep_marks :
    ∀ (todo : List Nat) (s : Subscription) (classes : List Class),
      todo ≠ [] →
      (∀ j c, j ∉ todo → classes[j]? = some c → c.is_fully_used = true) →
      ((todo.foldl deactivateStep (s, classes)).1).is_fully_used = true := by
  intro todo
  induction todo with
  | nil => intro s classes hne _; exact absurd rfl hne
  | cons i todo ih =>
    intro s classes _ hcov
    by_cases htodo : todo = []
    · subst htodo
      simp only [List.foldl_cons, List.foldl_nil]
      unfold deactivateStep
      have hall : ((markAt classes i).any fun c => !c.is_fully_used) = false := by
        rw [List.any_eq_false]
        intro c hcmem
        obtain ⟨j, hj⟩ := List.getElem?_of_mem hcmem
        rw [getElem?_markAt] at hj
        by_cases hji : j = i
        · rw [if_pos hji] at hj
          obtain ⟨c0, _, rfl⟩ := Option.map_eq_some'.mp hj
          simp [mark_base_is_fully_used]
        · rw [if_neg hji] at hj
          have hused : c.is_fully_used = true := hcov j c (by simp [hji]) hj
          simp [hused]
      simp [Subscription.check_is_fully_finished, hall, Subscription.mark_as_fully_used]
    · have hstep : deactivateStep (s, classes) i =
          ((Subscription.update_first_lesson_date s (markAt classes i)).check_is_fully_finished
            (markAt classes i), markAt classes i) := rfl
      simp only [List.foldl_cons, hstep]
      apply ih _ _ htodo
      intro j c hj hjc
      rw [getElem?_markAt] at hjc
      by_cases hji : j = i
      · rw [if_pos hji] at hjc
        obtain ⟨c0, _, rfl⟩ := Option.map_eq_some'.mp hjc
        exact mark_base_is_fully_used c0
      · rw [if_neg hji] at hjc
        exact hcov j c (by simp [hji, hj]) hjc

lemma mem_deactivateTodo (classes : List Class) (j : Nat) :
    j ∈ deactivateTodo classes ↔
      ∃ c, classes[j]? = some c ∧ c.is_fully_used = false := by
  simp only [deactivateTodo, List.mem_filter, List.mem_range]
  constructor
  · rintro ⟨hlt, hp⟩
    cases hjc : classes[j]? with
    | none => rw [hjc] at hp; simp at hp
    | some c =>
      rw [hjc] at hp
      refine ⟨c, rfl, ?_⟩
      simpa using hp
  · rintro ⟨c, hjc, hcu⟩
    have hlt : j < classes.length := by
      by_contra hge
      rw [List.getElem?_eq_none (le_of_not_lt hge)] at hjc
      cases hjc
    refine ⟨hlt, ?_⟩
    rw [hjc]
    simp [hcu]

lemma nodup_deactivateTodo (classes : List Class) : (deactivateTodo classes).Nodup :=
  (List.nodup_range _).filter _

/-- C3 (amended): `Subscription.deactivate` marks every owned class that was
not fully used (via the base marking, which also re-saves the row), leaves
every already fully-used owned class untouched, and — provided at least one
owned class was unused — leaves the subscription itself fully used via
`check_is_fully_finished`; when every owned class was already used the loop
body never runs and the subscription's own flag is unchanged. -/
theorem deactivate_marks_unused_classes (s : Subscription) (classes : List Class) :
    (∀ (j : Nat) (c : Class), classes[j]? = some c → c.is_fully_used = false →
        ((s.deactivate classes).2)[j]? = some c.mark_as_fully_used_base
          ∧ c.mark_as_fully_used_base.is_fully_used = true)
  ∧ (∀ (j : Nat) (c : Class), classes[j]? = some c → c.is_fully_used = true →
        ((s.deactivate classes).2)[j]? = some c)
  ∧ ((∃ c ∈ classes, c.is_fully_used = false) →
        ((s.deactivate classes).1).is_fully_used = true) := by
  refine ⟨?_, ?_, ?_⟩
  · intro j c hjc hcu
    have hjm : j ∈ deactivateTodo classes := (mem_deactivateTodo classes j).mpr ⟨c, hjc, hcu⟩
    refine ⟨?_, mark_base_is_fully_used c⟩
    show ((deactivateTodo classes).foldl deactivateStep (s, classes)).2[j]? = _
    rw [foldl_deactivateStep_snd,
      foldl_markAt_getElem?_mem _ _ _ (nodup_deactivateTodo classes) hjm, hjc]
    rfl
  · intro j c hjc hcu
    have hjm : j ∉ deactivateTodo classes := by
      rw [mem_deactivateTodo]
      rintro ⟨c2, hjc2, hcu2⟩
      rw [hjc] at hjc2
      cases hjc2
      rw [hcu] at hcu2
      cases hcu2
    show ((deactivateTodo classes).foldl deactivateStep (s, classes)).2[j]? = _
    rw [foldl_deactivateStep_snd, foldl_markAt_getElem?_not_mem _ _ _ hjm, hjc]
  · rintro ⟨c, hcmem, hcu⟩
    obtain ⟨j, hj⟩ := List.getElem?_of_mem hcmem
    have hjm : j ∈ deactivateTodo classes := (mem_deactivateTodo classes j).mpr ⟨c, hj, hcu⟩
    apply foldl_deactivateStep_marks _ _ _ (List.ne_nil_of_mem hjm)
    intro j2 c2 hj2 hjc2
    cases hcu2 : c2.is_fully_used
    · exact absurd ((mem_deactivateTodo classes j2).mpr ⟨c2, hjc2, hcu2⟩) hj2
    · rfl

theorem deactivate_marks_unused_classes_witness :
    ((sampleSubscription.deactivate [sampleUsedClass, sampleEarlyClass]).2)[1]? =
      some sampleEarlyClass.mark_as_fully_used_base
  ∧ ((sampleSubscription.deactivate [sampleUsedClass, sampleEarlyClass]).2)[0]? =
      some sampleUsedClass
  ∧ ((sampleSubscription.deactivate [sampleUsedClass, sampleEarlyClass]).1).is_fully_used =
      true :=
  ⟨((deactivate_marks_unused_classes sampleSubscription
      [sampleUsedClass, sampleEarlyClass]).1 1 sampleEarlyClass rfl rfl).1,
   (deactivate_marks_unused_classes sampleSubscription
      [sampleUsedClass, sampleEarlyClass]).2.1 0 sampleUsedClass rfl rfl,
   (deactivate_marks_unused_classes sampleSubscription
      [sampleUsedClass, sampleEarlyClass]).2.2
     ⟨sampleEarlyClass, by simp, rfl⟩⟩

/-- C3 counterexample to the claim as stated: deactivating a subscription
whose only owned class is already fully used runs the loop zero times, so the
subscription's own `is_fully_used` stays false. -/
theorem deactivate_all_used_subscription_not_marked :
    ((sampleSubscription.deactivate [sampleUsedClass]).1).is_fully_used = false
  ∧ (sampleSubscription.deactivate [sampleUsedClass]).2 = [sampleUsedClass] := by
  constructor <;> rfl

end Market
